import Mathlib

/-!
Verification development for the HardwareBackend e-commerce service
(controllers/cartController.js, controllers/productController.js,
controllers/wishlistController.js, models/productModel.js,
models/wishlistModel.js, and the route files).

The JavaScript handlers are shallowly embedded as pure Lean functions over
an explicit store state.  JavaScript numbers are modelled as rationals;
dynamically typed request values are modelled by the JsVal type below,
which records a value by its numeric coercion class (an actual number,
NaN, undefined, null), since the handlers only ever inspect such values
through Number(.), parseInt(., 10) and truthiness.
-/

namespace Hardware

/-- Identity strings (Mongo ObjectId hex strings, user ids). -/
abbrev Id := String

/-- A dynamically typed JavaScript value as seen by the numeric coercions
used in the handlers.  A JSON string or boolean field is represented by
its Number(.) coercion class: a numeric string becomes num of its value
and a non-numeric string becomes nan. -/
inductive JsVal where
  | num (q : ℚ)
  | nan
  | undef
  | null
deriving DecidableEq, Repr

/-- Number(v) in JavaScript, with none standing for NaN:
Number(q) = q, Number(NaN) = NaN, Number(undefined) = NaN, Number(null) = 0. -/
def jsToNumber : JsVal → Option ℚ
  | .num q => some q
  | .nan => none
  | .undef => none
  | .null => some 0

/-- Number(v) kept as a JavaScript value (NaN preserved). -/
def jsNumberVal (v : JsVal) : JsVal :=
  match jsToNumber v with
  | some q => .num q
  | none => .nan

/-- Whether Number(v) is NaN, i.e. Number.isNaN(Number(v)). -/
def jsIsNaN (v : JsVal) : Bool :=
  (jsToNumber v).isNone

/-- The defensive coercion (Number(v) || 0) used by buildCartSummary:
a missing or non-numeric quantity or price contributes 0.  (For the
number 0 itself the || also yields 0, which coincides with the value.) -/
def numOr0 : JsVal → ℚ
  | .num q => q
  | _ => 0

/-- Truncation of a rational toward zero, the integer part used to model
parseInt applied to an ordinary decimal rendering of a number. -/
def ratTrunc (q : ℚ) : Int :=
  q.num.tdiv q.den

/-- parseInt(v, 10) on a request value, none standing for NaN.  A number
is parsed from its decimal rendering, which truncates toward zero;
undefined and null render as non-numeric strings and give NaN. -/
def jsParseIntVal : JsVal → Option Int
  | .num q => some (ratTrunc q)
  | _ => none

/-- The quantity coercion of addToCart:
Math.max(parseInt(quantity, 10) || 1, 1). -/
def coerceQty (v : JsVal) : Int :=
  let p : Int :=
    match jsParseIntVal v with
    | none => 1
    | some n => if n = 0 then 1 else n
  max p 1

/-- Hex digit test for the identity format. -/
def isHexDigit (c : Char) : Bool :=
  (('0' ≤ c) && (c ≤ '9')) || (('a' ≤ c) && (c ≤ 'f')) || (('A' ≤ c) && (c ≤ 'F'))

/-- The 24-hex identity test used by productController via the regular
expression that matches exactly 24 hexadecimal characters. -/
def isHex24 (s : String) : Bool :=
  (s.length == 24) && s.toList.all isHexDigit

/-- Modelled from the bson library (v5 and later, as used by current
mongoose): mongoose.Types.ObjectId.isValid restricted to string inputs
holds exactly for 24 character hexadecimal strings. -/
def objectIdIsValidStr (s : String) : Bool :=
  (s.length == 24) && s.toList.all isHexDigit

/-- A product document (models/productModel.js).  Timestamps are reduced
to the creation instant, which the list endpoint sorts on. -/
structure Product where
  id : Id
  name : String
  category : String
  type : String
  brand : Option String
  sku : Option String
  price : JsVal
  oldPrice : Option JsVal
  rating : JsVal
  badge : Option String
  image : Option String
  description : Option String
  stock : JsVal
  isActive : Bool
  createdAt : Nat
deriving DecidableEq, Repr

/-- Modelled from the spec: models/cartItemModel.js is not in the
sources, only its callers in cartController.js are; per the spec data
model a CartItem carries an identity, the owning user reference, the
product reference and a quantity, with a unique (user, product) backstop
index. -/
structure CartItem where
  id : Id
  user : Id
  product : Id
  quantity : JsVal
deriving DecidableEq, Repr

/-- A wishlist entry (models/wishlistModel.js): user and product
references with a unique (user, product) index. -/
structure WishlistItem where
  user : Id
  product : Id
deriving DecidableEq, Repr

/-- The document store backing the service. -/
structure Store where
  products : List Product
  cartItems : List CartItem
  wishlistItems : List WishlistItem
deriving DecidableEq, Repr

/-- Product.findById / the id lookup of a populate step. -/
def findProduct (s : Store) (pid : Id) : Option Product :=
  s.products.find? (fun p => p.id == pid)

/-- Product.findOne with filter on id and isActive true. -/
def findActiveProduct (s : Store) (pid : Id) : Option Product :=
  (findProduct s pid).bind (fun p => if p.isActive then some p else none)

/-- CartItem.find for a user. -/
def userCartItems (s : Store) (u : Id) : List CartItem :=
  s.cartItems.filter (fun i => i.user == u)

/-- The product field after populate with match isActive true: the
referenced product when it exists and is active, otherwise null. -/
def populatedProduct (s : Store) (i : CartItem) : Option Product :=
  (findProduct s i.product).bind (fun p => if p.isActive then some p else none)

/-- The cart summary returned to clients. -/
structure Summary where
  items : List (CartItem × Product)
  count : ℚ
  total : ℚ
deriving DecidableEq, Repr

/-- buildCartSummary (cartController.js): populate the user cart items,
drop the ones whose product resolved to null, then fold up count and
total with the defensive (Number(x) || 0) coercion. -/
def buildCartSummary (s : Store) (u : Id) : Summary :=
  let items := (userCartItems s u).map (fun i => (i, populatedProduct s i))
  let clean := items.filterMap (fun ip =>
    match ip.2 with
    | some p => some (ip.1, p)
    | none => none)
  { items := clean
    count := clean.foldl (fun sum ip => sum + numOr0 ip.1.quantity) 0
    total := clean.foldl (fun sum ip => sum + numOr0 ip.1.quantity * numOr0 ip.2.price) 0 }

/-- GET /api/cart: pure read that answers the summary; the returned store
records that the handler performs no write. -/
def getCart (s : Store) (u : Id) : Store × Summary :=
  (s, buildCartSummary s u)

/-- Responses of the cart handlers, tagged by their HTTP status. -/
inductive CartResp where
  | created (sum : Summary)
  | badReq (msg : String)
  | notFound (msg : String)
  | conflict (msg : String) (sum : Summary)
  | error (msg : String)
deriving DecidableEq, Repr

/-- The HTTP status code of a cart response. -/
def CartResp.status : CartResp → Nat
  | .created _ => 201
  | .badReq _ => 400
  | .notFound _ => 404
  | .conflict _ _ => 409
  | .error _ => 500

/-- Modelled from the spec: the unique (user, product) backstop index
lives in the missing models/cartItemModel.js.  This type is the outcome
of the write step of addToCart: in a sequential run the write succeeds
(ok); dupKey is the duplicate-key error (Mongo code 11000) raised by
that backstop index when a concurrent add won the race; otherErr is any
other store failure raised inside the try block. -/
inductive WriteOutcome where
  | ok
  | dupKey
  | otherErr
deriving DecidableEq, Repr

/-- Result of a mutating handler: the store after the call plus the
response sent. -/
structure AddResult where
  store : Store
  resp : CartResp
deriving DecidableEq, Repr

/-- The read-then-write upsert at the heart of addToCart: if a cart item
for (user, product) exists, set its quantity to
Math.max((quantity || 0) + qty, 1) and save it; otherwise create a new
item with the requested quantity. -/
def addToCartCore (s : Store) (u pid : Id) (qty : Int) (newId : Id) : Store :=
  match s.cartItems.find? (fun i => i.user == u && i.product == pid) with
  | some item =>
    let newq : JsVal := .num (max (numOr0 item.quantity + (qty : ℚ)) 1)
    { s with cartItems :=
        s.cartItems.map (fun i => if i.id == item.id then { i with quantity := newq } else i) }
  | none =>
    { s with cartItems :=
        s.cartItems ++ [{ id := newId, user := u, product := pid, quantity := .num (qty : ℚ) }] }

/-- POST /api/cart (addToCart, cartController.js).  raceStore is the
store visible to the fresh read performed in the duplicate-key catch
branch (the state after the racing writer committed); it is unused on
the ok path. -/
def addToCart (s : Store) (u : Id) (productId : Option String) (quantity : Option JsVal)
    (newId : Id) (w : WriteOutcome) (raceStore : Store) : AddResult :=
  match productId with
  | none => ⟨s, .badReq "Invalid productId"⟩
  | some pid =>
    if pid == "" || !(objectIdIsValidStr pid) then ⟨s, .badReq "Invalid productId"⟩
    else
      let qty : Int := coerceQty ((quantity).getD (.num 1))
      match findActiveProduct s pid with
      | none => ⟨s, .notFound "Product not found"⟩
      | some _ =>
        match w with
        | .ok =>
          let s' := addToCartCore s u pid qty newId
          ⟨s', .created (buildCartSummary s' u)⟩
        | .dupKey => ⟨raceStore, .conflict "Cart item already exists" (buildCartSummary raceStore u)⟩
        | .otherErr => ⟨s, .error "Error adding to cart"⟩

/-- One add request in a sequence of sequential adds. -/
structure AddReq where
  user : Id
  productId : Option String
  quantity : Option JsVal
  newId : Id
deriving DecidableEq, Repr

/-- A sequence of sequential addToCart calls (each write succeeds). -/
def applyAdds (s : Store) (ops : List AddReq) : Store :=
  ops.foldl (fun st op => (addToCart st op.user op.productId op.quantity op.newId .ok st).store) s

/-- The invariant of the cart collection: at most one cart item per
(user, product) pair. -/
def cartUnique (s : Store) : Prop :=
  s.cartItems.Pairwise (fun a b => ¬(a.user = b.user ∧ a.product = b.product))

/-- DELETE /api/cart (clearCart): delete the user scoped items and answer
the fixed message and zeroed summary, with no recomputation. -/
def clearCart (s : Store) (u : Id) : Store × (String × Summary) :=
  ({ s with cartItems := s.cartItems.filter (fun i => !(i.user == u)) },
   ("Cart cleared", { items := [], count := 0, total := 0 }))

/-- GET /api/wishlist (wishlistController.js): populate with match
isActive true and drop entries whose product resolved to null; purely a
read, so the store comes back unchanged. -/
def getWishlist (s : Store) (u : Id) : Store × List (WishlistItem × Product) :=
  let items := (s.wishlistItems.filter (fun w => w.user == u)).map
    (fun w => (w, (findProduct s w.product).bind (fun p => if p.isActive then some p else none)))
  (s, items.filterMap (fun wp =>
    match wp.2 with
    | some p => some (wp.1, p)
    | none => none))

/-- Responses of the wishlist handlers. -/
inductive WishResp where
  | created (w : WishlistItem)
  | badReq (msg : String)
  | notFound (msg : String)
  | conflict (msg : String)
  | error (msg : String)
deriving DecidableEq, Repr

/-- The HTTP status code of a wishlist response. -/
def WishResp.status : WishResp → Nat
  | .created _ => 201
  | .badReq _ => 400
  | .notFound _ => 404
  | .conflict _ => 409
  | .error _ => 500

/-- POST /api/wishlist (addToWishlist): validate the id, require an
active product, then insert.  The unique (user, product) index of
wishlistItemSchema makes the insert fail with a duplicate-key error when
the pair already exists, which the handler catches and maps to the
conflict response; this is the only write, so the store is unchanged in
every non-created outcome. -/
def addToWishlist (s : Store) (u : Id) (productId : Option String) : Store × WishResp :=
  match productId with
  | none => (s, .badReq "Invalid productId")
  | some pid =>
    if pid == "" || !(objectIdIsValidStr pid) then (s, .badReq "Invalid productId")
    else
      match findActiveProduct s pid with
      | none => (s, .notFound "Product not found")
      | some _ =>
        if s.wishlistItems.any (fun w => w.user == u && w.product == pid) then
          (s, .conflict "Product already in wishlist")
        else
          ({ s with wishlistItems := s.wishlistItems ++ [{ user := u, product := pid }] },
           .created { user := u, product := pid })

/-- DELETE /api/wishlist (clearWishlist): user scoped deleteMany followed
by the fixed message; deleting an empty set succeeds like any other. -/
def clearWishlist (s : Store) (u : Id) : Store × String :=
  ({ s with wishlistItems := s.wishlistItems.filter (fun w => !(w.user == u)) },
   "Wishlist cleared")

/-- Responses of getProductById and toggleProductActive. -/
inductive ProdResp where
  | ok (p : Product)
  | badReq (msg : String)
  | notFound (msg : String)
  | error (msg : String)
deriving DecidableEq, Repr

/-- The HTTP status code of a product response. -/
def ProdResp.status : ProdResp → Nat
  | .ok _ => 200
  | .badReq _ => 400
  | .notFound _ => 404
  | .error _ => 500

/-- GET /api/products/:id (productController.js): the id must match the
24 hexadecimal character regular expression before the store is
consulted. -/
def getProductById (s : Store) (id : String) : ProdResp :=
  if id == "" || !(isHex24 id) then .badReq "Invalid product id"
  else
    match findProduct s id with
    | none => .notFound "Product not found"
    | some p => .ok p

/-- PATCH /api/products/:id/toggle (toggleProductActive): find the
product, flip isActive in place and save the document. -/
def toggleProductActive (s : Store) (id : String) : Store × ProdResp :=
  if id == "" || !(isHex24 id) then (s, .badReq "Invalid product id")
  else
    match findProduct s id with
    | none => (s, .notFound "Product not found")
    | some p =>
      let p' : Product := { p with isActive := !p.isActive }
      ({ s with products := s.products.map (fun q => if q.id == p.id then p' else q) },
       .ok p')

/-- Truthiness of an optional string field: undefined and the empty
string are falsy. -/
def strFalsy : Option String → Bool
  | none => true
  | some s => s == ""

/-- The nullish test x === undefined or x === null. -/
def jsNullish : JsVal → Bool
  | .undef => true
  | .null => true
  | _ => false

/-- The price guard of createProduct:
price === undefined or price === null or Number.isNaN(Number(price)). -/
def priceMissing (v : JsVal) : Bool :=
  match v with
  | .undef => true
  | .null => true
  | _ => jsIsNaN v

/-- Request body of POST /api/products.  String-valued fields are kept as
optional strings; numeric fields carry the JsVal coercion class; the
isActive flag is modelled as boolean-or-absent. -/
structure CreateReq where
  name : Option String
  category : Option String
  type : Option String
  brand : Option String
  sku : Option String
  price : JsVal
  oldPrice : JsVal
  rating : JsVal
  badge : Option String
  image : Option String
  description : Option String
  stock : JsVal
  isActive : Option Bool
deriving DecidableEq, Repr

/-- Responses of createProduct. -/
inductive CreateResp where
  | created (p : Product)
  | badReq (msg : String)
  | conflict (msg : String)
  | error (msg : String)
deriving DecidableEq, Repr

/-- The HTTP status code of a createProduct response. -/
def CreateResp.status : CreateResp → Nat
  | .created _ => 201
  | .badReq _ => 400
  | .conflict _ => 409
  | .error _ => 500

/-- The document assembled by Product.create inside createProduct, with
the trimming, numeric coercions and schema defaults (rating 0, stock 0,
isActive true) applied. -/
def createDoc (r : CreateReq) (newId : Id) (now : Nat) : Product :=
  { id := newId
    name := ((r.name).getD "").trim
    category := ((r.category).getD "").trim
    type := ((r.type).getD "").trim
    brand := match r.brand with
      | some b => if b == "" then none else some b.trim
      | none => none
    sku := match r.sku with
      | some sk => if sk == "" then none else some sk.trim
      | none => none
    price := jsNumberVal r.price
    oldPrice := if jsNullish r.oldPrice then none else some (jsNumberVal r.oldPrice)
    rating := if jsNullish r.rating then .num 0 else jsNumberVal r.rating
    badge := r.badge
    image := r.image
    description := r.description
    stock := if jsNullish r.stock then .num 0 else jsNumberVal r.stock
    isActive := (r.isActive).getD true
    createdAt := now }

/-- POST /api/products (createProduct, productController.js): require
name, category and type; require a numeric price; check sku uniqueness
before insert when a sku was supplied; and translate the duplicate-key
error of the sparse unique sku index on the insert itself to the
conflict response. -/
def createProduct (s : Store) (r : CreateReq) (newId : Id) (now : Nat) : Store × CreateResp :=
  if strFalsy r.name || strFalsy r.category || strFalsy r.type then
    (s, .badReq "name, category, type are required")
  else if priceMissing r.price then
    (s, .badReq "price is required and must be a number")
  else if (match r.sku with
           | some sk => !(sk == "") && s.products.any (fun p => p.sku == some sk)
           | none => false) then
    (s, .conflict "SKU already exists")
  else
    let doc := createDoc r newId now
    if (match doc.sku with
        | some sk => s.products.any (fun p => p.sku == some sk)
        | none => false) then
      (s, .conflict "Duplicate key (likely sku)")
    else
      ({ s with products := s.products ++ [doc] }, .created doc)

/-- Query string of GET /api/products; absent keys are none (express
query values are strings). -/
structure ListQuery where
  search : Option String
  type : Option String
  category : Option String
  sort : Option String
  page : Option String
  limit : Option String
  active : Option String
deriving DecidableEq, Repr

/-- Response of GET /api/products. -/
structure ListResp where
  items : List Product
  page : Int
  limit : Int
  total : Nat
  pages : Nat
deriving DecidableEq, Repr

/-- parseInt(s, 10) on a string: strip leading whitespace, read an
optional sign and then the longest digit run; NaN (none) when no digit
follows. -/
def jsParseInt10 (s : String) : Option Int :=
  let cs := s.toList.dropWhile (fun c => c == ' ' || c == '\t' || c == '\n' || c == '\r')
  let signAndRest : Int × List Char :=
    match cs with
    | '-' :: rest => (-1, rest)
    | '+' :: rest => (1, rest)
    | _ => (1, cs)
  let ds := signAndRest.2.takeWhile Char.isDigit
  if ds.isEmpty then none
  else some (signAndRest.1 * (ds.foldl (fun n c => 10 * n + (c.toNat - '0'.toNat)) 0 : Nat))

/-- The expression parseInt(x, 10) || d applied to an optional query
value whose destructuring default is the number d: an absent key, NaN or
0 all fall back to d. -/
def parseIntOr (o : Option String) (d : Int) : Int :=
  match o with
  | none => d
  | some str =>
    match jsParseInt10 str with
    | none => d
    | some n => if n = 0 then d else n

/-- Whether pat occurs as a contiguous run inside the character list. -/
def charsContain (pat : List Char) : List Char → Bool
  | [] => pat.isEmpty
  | h :: t => pat.isPrefixOf (h :: t) || charsContain pat t

/-- Case-insensitive containment, modelling the test of the regular
expression new RegExp(pattern, i-flag) for a pattern without regex
metacharacters. -/
def ciContains (hay pat : String) : Bool :=
  charsContain pat.toLower.toList hay.toLower.toList

/-- Whether an optional document field matches the search regex; a
missing field never matches. -/
def optContains (field : Option String) (pat : String) : Bool :=
  match field with
  | some f => ciContains f pat
  | none => false

/-- The Mongo filter assembled by getProducts: the active flag (isActive
true by default, false on active=false, unconstrained otherwise), the
type and category equality filters, and the case-insensitive search
across name, category, type, brand and sku. -/
def matchesFilter (q : ListQuery) (p : Product) : Bool :=
  (match (q.active).getD "true" with
   | "true" => p.isActive
   | "false" => !p.isActive
   | _ => true)
  && (match q.type with
      | some t => if !(t == "") && !(t == "all") then p.type == t else true
      | none => true)
  && (match q.category with
      | some c => if !(c == "") && !(c == "all") then p.category == c else true
      | none => true)
  && (match q.search with
      | some pat =>
        if !(pat == "") then
          ciContains p.name pat || ciContains p.category pat || ciContains p.type pat
            || optContains p.brand pat || optContains p.sku pat
        else true
      | none => true)

/-- BSON ascending comparison on a numeric field, with NaN ordered below
every number. -/
def bsonNumLe (a b : JsVal) : Bool :=
  match jsToNumber a, jsToNumber b with
  | none, _ => true
  | some _, none => false
  | some x, some y => x ≤ y

/-- The sort stage of getProducts: one of the five recognised keys sorts
(stably) by the corresponding field and direction, any other key leaves
the natural order untouched. -/
def applySort (key : String) (l : List Product) : List Product :=
  if key == "price-low" then l.mergeSort (fun a b => bsonNumLe a.price b.price)
  else if key == "price-high" then l.mergeSort (fun a b => bsonNumLe b.price a.price)
  else if key == "rating-high" then l.mergeSort (fun a b => bsonNumLe b.rating a.rating)
  else if key == "newest" then l.mergeSort (fun a b => decide (b.createdAt ≤ a.createdAt))
  else if key == "oldest" then l.mergeSort (fun a b => decide (a.createdAt ≤ b.createdAt))
  else l

/-- GET /api/products (getProducts, productController.js): build the
filter, sort, clamp page to at least 1 and limit to 1..200, paginate by
skip and limit, and answer the items with pagination metadata where
pages is the ceiling of total over limit. -/
def getProducts (s : Store) (q : ListQuery) : ListResp :=
  let sortKey := (q.sort).getD "price-high"
  let filtered := s.products.filter (matchesFilter q)
  let sorted := applySort sortKey filtered
  let pageNum : Int := max (parseIntOr q.page 1) 1
  let limitNum : Int := min (max (parseIntOr q.limit 50) 1) 200
  let skip := ((pageNum - 1) * limitNum).toNat
  let total := filtered.length
  { items := (sorted.drop skip).take limitNum.toNat
    page := pageNum
    limit := limitNum
    total := total
    pages := ⌈(total : ℚ) / (limitNum : ℚ)⌉₊ }

/-! Sample data used by the witness theorems. -/

/-- A sample active product. -/
def sampleP1 : Product :=
  { id := "aaaaaaaaaaaaaaaaaaaaaaaa", name := "P1", category := "Roofing Sheets"
    type := "Roofing", brand := none, sku := some "S1", price := .num 10
    oldPrice := none, rating := .num 0, badge := none, image := none
    description := none, stock := .num 0, isActive := true, createdAt := 1 }

/-- A sample product that has been soft-deleted (isActive false). -/
def sampleP2 : Product :=
  { sampleP1 with id := "bbbbbbbbbbbbbbbbbbbbbbbb", name := "P2", sku := some "S2"
                  price := .num 5, isActive := false, createdAt := 2 }

/-- A sample store: one active and one inactive product, a cart and a
wishlist entry for each. -/
def sampleStore : Store :=
  { products := [sampleP1, sampleP2]
    cartItems :=
      [ { id := "c1", user := "u1", product := "aaaaaaaaaaaaaaaaaaaaaaaa", quantity := .num 2 }
      , { id := "c2", user := "u1", product := "bbbbbbbbbbbbbbbbbbbbbbbb", quantity := .num 1 } ]
    wishlistItems := [ { user := "u1", product := "bbbbbbbbbbbbbbbbbbbbbbbb" } ] }

/-- The sample store extended with a cart item whose product reference
does not resolve to any stored product (a dangling reference). -/
def sampleStoreDangling : Store :=
  { sampleStore with
    cartItems := sampleStore.cartItems ++
      [ { id := "c3", user := "u1", product := "dddddddddddddddddddddddd"
          quantity := .num 4 } ] }

/-- A sample store whose wishlist already holds the active product. -/
def sampleStoreDup : Store :=
  { sampleStore with
    wishlistItems := [ { user := "u1", product := "aaaaaaaaaaaaaaaaaaaaaaaa" } ] }

/-- A sample create request with an invalid (non-numeric) price. -/
def sampleBadPriceReq : CreateReq :=
  { name := some "Nails", category := some "Fasteners", type := some "Hardware"
    brand := none, sku := none, price := .nan, oldPrice := .undef, rating := .undef
    badge := none, image := none, description := none, stock := .undef, isActive := none }

/-- A sample create request whose sku collides with the stored product. -/
def sampleDupSkuReq : CreateReq :=
  { sampleBadPriceReq with price := .num 3, sku := some "S1" }

/-- The product list query with every parameter absent. -/
def sampleQueryNone : ListQuery :=
  { search := none, type := none, category := none, sort := none
    page := none, limit := none, active := none }

end Hardware

/-! Theorems. -/

namespace Hardware

/-- Folding addition of f over a list starting from a equals a plus the
sum of the mapped list. -/
theorem foldl_add_map_sum {α : Type} (f : α → ℚ) (l : List α) (a : ℚ) :
    l.foldl (fun s x => s + f x) a = a + (l.map f).sum := by
  induction l generalizing a with
  | nil => simp
  | cons x xs ih => simp [ih, add_assoc]

/-- Claim C1: for every user, the cart summary has as items exactly the
user cart items whose referenced product exists and is active, count the
sum of their (defensively coerced) quantities, total the sum of quantity
times current price, and the coercion sends missing or non-numeric
values to 0 rather than failing. -/
theorem cart_summary_matches_live_products (s : Store) (u : Id) :
    (buildCartSummary s u).items =
      (s.cartItems.filter (fun i => i.user == u)).filterMap
        (fun i =>
          match findProduct s i.product with
          | some p => if p.isActive then some (i, p) else none
          | none => none)
  ∧ (buildCartSummary s u).count =
      (((buildCartSummary s u).items).map (fun ip => numOr0 ip.1.quantity)).sum
  ∧ (buildCartSummary s u).total =
      (((buildCartSummary s u).items).map
        (fun ip => numOr0 ip.1.quantity * numOr0 ip.2.price)).sum
  ∧ numOr0 .nan = 0 ∧ numOr0 .undef = 0 ∧ numOr0 .null = 0 := by
  refine ⟨?_, ?_, ?_, rfl, rfl, rfl⟩
  · show ((userCartItems s u).map _).filterMap _ = _
    rw [List.filterMap_map]
    unfold userCartItems
    congr 1
    funext i
    simp only [Function.comp, populatedProduct]
    cases findProduct s i.product with
    | none => rfl
    | some p => by_cases hp : p.isActive <;> simp [hp]
  · simp only [buildCartSummary]
    rw [foldl_add_map_sum]
    simp
  · simp only [buildCartSummary]
    rw [foldl_add_map_sum]
    simp

/-- Claim C9: clearing the cart or the wishlist always succeeds, also on
an already empty cart or wishlist; the cart clear answers the fixed
zeroed summary without recomputation; afterwards the user owns no cart
or wishlist items, and nothing else in the store is touched. -/
theorem clear_cart_wishlist_always_zeroed (s : Store) (u : Id) :
    (clearCart s u).2 = ("Cart cleared", { items := [], count := 0, total := 0 })
  ∧ ((clearCart s u).1.cartItems.filter (fun i => i.user == u)) = []
  ∧ (clearCart s u).1.products = s.products
  ∧ (clearCart s u).1.wishlistItems = s.wishlistItems
  ∧ (clearWishlist s u).2 = "Wishlist cleared"
  ∧ ((clearWishlist s u).1.wishlistItems.filter (fun w => w.user == u)) = []
  ∧ (clearWishlist s u).1.products = s.products
  ∧ (clearWishlist s u).1.cartItems = s.cartItems := by
  refine ⟨rfl, ?_, rfl, rfl, rfl, ?_, rfl, rfl⟩
  · simp [clearCart, List.filter_filter]
  · simp [clearWishlist, List.filter_filter]

/-- Mapping a function that preserves the user and product references
preserves the one-item-per-pair invariant. -/
theorem pairwise_key_map (l : List CartItem) (f : CartItem → CartItem)
    (hf : ∀ i, (f i).user = i.user ∧ (f i).product = i.product)
    (h : l.Pairwise (fun a b => ¬(a.user = b.user ∧ a.product = b.product))) :
    (l.map f).Pairwise (fun a b => ¬(a.user = b.user ∧ a.product = b.product)) := by
  rw [List.pairwise_map]
  refine h.imp ?_
  intro a b hab
  rw [(hf a).1, (hf a).2, (hf b).1, (hf b).2]
  exact hab

/-- The upsert step of addToCart preserves the at-most-one-cart-item-per-
(user, product) invariant. -/
theorem addToCartCore_unique (s : Store) (u pid : Id) (qty : Int) (nid : Id)
    (h : cartUnique s) : cartUnique (addToCartCore s u pid qty nid) := by
  unfold cartUnique addToCartCore
  cases hf : s.cartItems.find? (fun i => i.user == u && i.product == pid) with
  | some item =>
    exact pairwise_key_map _ _ (fun i => by constructor <;> (dsimp; split <;> rfl)) h
  | none =>
    simp only
    rw [List.pairwise_append]
    refine ⟨h, by simp, ?_⟩
    intro a ha b hb
    simp only [List.mem_singleton] at hb
    subst hb
    have hnone := List.find?_eq_none.mp hf a ha
    simp only [Bool.and_eq_true, beq_iff_eq, not_and] at hnone
    rintro ⟨h1, h2⟩
    exact hnone h1 h2

/-- The full addToCart handler on a sequential (write-succeeds) run
preserves the cart invariant in every branch. -/
theorem addToCart_ok_unique (s : Store) (u : Id) (pidO : Option String) (v : Option JsVal)
    (nid : Id) (r : Store) (h : cartUnique s) :
    cartUnique (addToCart s u pidO v nid .ok r).store := by
  unfold addToCart
  cases pidO with
  | none => exact h
  | some pid =>
    by_cases hg : (pid == "" || !(objectIdIsValidStr pid)) = true
    · simp only [hg, if_true]
      exact h
    · simp only [Bool.not_eq_true] at hg
      simp only [hg, Bool.false_eq_true, if_false]
      cases findActiveProduct s pid with
      | none => exact h
      | some p => exact addToCartCore_unique _ _ _ _ _ h

/-- Any sequence of sequential addToCart calls preserves the cart
invariant. -/
theorem applyAdds_unique (s : Store) (ops : List AddReq) (h : cartUnique s) :
    cartUnique (applyAdds s ops) := by
  induction ops generalizing s with
  | nil => exact h
  | cons op rest ih =>
    unfold applyAdds
    rw [List.foldl_cons]
    exact ih _ (addToCart_ok_unique _ _ _ _ _ _ h)

/-- Claim C2: starting from a store satisfying the at-most-one-cart-item
per (user, product) invariant, any sequence of addToCart calls keeps the
invariant, and when an item for the pair already exists the upsert step
modifies that item in place (same number of rows, quantity incremented
by the requested amount) instead of creating a second row. -/
theorem cart_add_upsert_no_duplicates (s : Store) (h : cartUnique s) :
    (∀ ops : List AddReq, cartUnique (applyAdds s ops))
  ∧ (∀ (u pid : Id) (qty : Int) (nid : Id) (item : CartItem),
      s.cartItems.find? (fun i => i.user == u && i.product == pid) = some item →
        (addToCartCore s u pid qty nid).cartItems.length = s.cartItems.length
        ∧ { item with quantity := JsVal.num (max (numOr0 item.quantity + (qty : ℚ)) 1) }
            ∈ (addToCartCore s u pid qty nid).cartItems) := by
  refine ⟨fun ops => applyAdds_unique s ops h, ?_⟩
  intro u pid qty nid item hf
  unfold addToCartCore
  rw [hf]
  refine ⟨List.length_map _ _, ?_⟩
  refine List.mem_map.mpr ⟨item, List.mem_of_find?_eq_some hf, ?_⟩
  simp

/-- Claim C2 witness. -/
theorem cart_add_upsert_no_duplicates_witness :
    cartUnique sampleStore
  ∧ cartUnique (applyAdds sampleStore
      [{ user := "u1", productId := some "aaaaaaaaaaaaaaaaaaaaaaaa", quantity := none, newId := "c9" }]) := by
  have h : cartUnique sampleStore := by unfold cartUnique; decide
  exact ⟨h, (cart_add_upsert_no_duplicates sampleStore h).1 _⟩

/-- A string accepted by the ObjectId validity test is not empty. -/
theorem validStr_ne_empty (pid : String) (hid : objectIdIsValidStr pid = true) :
    (pid == "") = false := by
  unfold objectIdIsValidStr at hid
  simp only [Bool.and_eq_true, beq_iff_eq] at hid
  by_cases h : pid = ""
  · subst h
    simp at hid
  · simp [h]

/-- Claim C3: when the write step of addToCart fails with the
duplicate-key error of the racing-add backstop, the handler neither
propagates the error nor retries the write: it answers 409 with the
summary recomputed from the current store, while any other failure
answers a generic 500 and also performs no further write. -/
theorem cart_add_race_conflict_recovery (s r : Store) (u : Id) (pid : String)
    (v : Option JsVal) (nid : Id)
    (hid : objectIdIsValidStr pid = true)
    (hp : (findActiveProduct s pid).isSome = true) :
    addToCart s u (some pid) v nid .dupKey r
      = ⟨r, .conflict "Cart item already exists" (buildCartSummary r u)⟩
  ∧ addToCart s u (some pid) v nid .otherErr r = ⟨s, .error "Error adding to cart"⟩
  ∧ (addToCart s u (some pid) v nid .dupKey r).resp.status = 409
  ∧ (addToCart s u (some pid) v nid .otherErr r).resp.status = 500 := by
  have hne := validStr_ne_empty pid hid
  obtain ⟨p, hp'⟩ := Option.isSome_iff_exists.mp hp
  have h1 : addToCart s u (some pid) v nid .dupKey r
      = ⟨r, .conflict "Cart item already exists" (buildCartSummary r u)⟩ := by
    unfold addToCart
    simp [hne, hid, hp']
  have h2 : addToCart s u (some pid) v nid .otherErr r
      = ⟨s, .error "Error adding to cart"⟩ := by
    unfold addToCart
    simp [hne, hid, hp']
  refine ⟨h1, h2, ?_, ?_⟩
  · rw [h1]
    rfl
  · rw [h2]
    rfl

/-- Claim C3 witness. -/
theorem cart_add_race_conflict_recovery_witness :
    objectIdIsValidStr "aaaaaaaaaaaaaaaaaaaaaaaa" = true
  ∧ (findActiveProduct sampleStore "aaaaaaaaaaaaaaaaaaaaaaaa").isSome = true
  ∧ addToCart sampleStore "u1" (some "aaaaaaaaaaaaaaaaaaaaaaaa") none "c9" .dupKey sampleStore
      = ⟨sampleStore, .conflict "Cart item already exists" (buildCartSummary sampleStore "u1")⟩ := by
  have h1 : objectIdIsValidStr "aaaaaaaaaaaaaaaaaaaaaaaa" = true := by decide
  have h2 : (findActiveProduct sampleStore "aaaaaaaaaaaaaaaaaaaaaaaa").isSome = true := by decide
  exact ⟨h1, h2,
    (cart_add_race_conflict_recovery sampleStore sampleStore "u1" _ none "c9" h1 h2).1⟩

/-- Claim C5: a product identity that is not a 24 character hexadecimal
string is rejected with a 400 response by getProductById, addToCart and
addToWishlist before any store access: the answer is the validation
error for every store, and the store is returned unchanged. -/
theorem identity_format_validated_before_store (id : String) (h : isHex24 id = false) :
    objectIdIsValidStr id = isHex24 id
  ∧ (∀ s : Store, getProductById s id = .badReq "Invalid product id")
  ∧ (∀ (s r : Store) (u : Id) (v : Option JsVal) (nid : Id) (w : WriteOutcome),
      addToCart s u (some id) v nid w r = ⟨s, .badReq "Invalid productId"⟩)
  ∧ (∀ (s : Store) (u : Id), addToWishlist s u (some id) = (s, .badReq "Invalid productId"))
  ∧ ProdResp.status (.badReq "Invalid product id") = 400
  ∧ CartResp.status (.badReq "Invalid productId") = 400
  ∧ WishResp.status (.badReq "Invalid productId") = 400 := by
  have h' : objectIdIsValidStr id = false := h
  refine ⟨rfl, ?_, ?_, ?_, rfl, rfl, rfl⟩
  · intro s
    unfold getProductById
    simp [h]
  · intro s r u v nid w
    unfold addToCart
    simp [h']
  · intro s u
    unfold addToWishlist
    simp [h']

/-- Claim C5 witness. -/
theorem identity_format_validated_before_store_witness :
    isHex24 "not-a-valid-objectid-xyz" = false
  ∧ getProductById sampleStore "not-a-valid-objectid-xyz" = .badReq "Invalid product id" := by
  have h : isHex24 "not-a-valid-objectid-xyz" = false := by decide
  exact ⟨h, (identity_format_validated_before_store _ h).2.1 sampleStore⟩

/-- Membership in the cart summary items: exactly the user cart items
whose product resolves and is active, paired with that product. -/
theorem cart_summary_mem (s : Store) (u : Id) (i : CartItem) (p : Product) :
    (i, p) ∈ (buildCartSummary s u).items ↔
      i ∈ s.cartItems ∧ i.user = u ∧ findProduct s i.product = some p ∧ p.isActive = true := by
  simp only [buildCartSummary]
  rw [List.filterMap_map, List.mem_filterMap]
  constructor
  · rintro ⟨a, ha, hfa⟩
    obtain ⟨hmem, hu⟩ := List.mem_filter.mp ha
    simp only [Function.comp, populatedProduct] at hfa
    cases h1 : findProduct s a.product with
    | none =>
      rw [h1] at hfa
      simp at hfa
    | some q =>
      rw [h1] at hfa
      by_cases hq : q.isActive
      · simp only [hq, Option.some_bind, if_true] at hfa
        obtain ⟨rfl, rfl⟩ := Prod.mk.injEq .. ▸ Option.some.injEq .. ▸ hfa
        exact ⟨hmem, by simpa using hu, h1, hq⟩
      · simp [hq] at hfa
  · rintro ⟨hi, hu, hf, hact⟩
    refine ⟨i, List.mem_filter.mpr ⟨by simpa [userCartItems] using hi, by simp [hu]⟩, ?_⟩
    simp only [Function.comp, populatedProduct]
    rw [hf]
    simp [hact]

/-- Membership in the wishlist view: exactly the user wishlist entries
whose product resolves and is active, paired with that product. -/
theorem wishlist_view_mem (s : Store) (u : Id) (w : WishlistItem) (p : Product) :
    (w, p) ∈ (getWishlist s u).2 ↔
      w ∈ s.wishlistItems ∧ w.user = u ∧ findProduct s w.product = some p ∧ p.isActive = true := by
  simp only [getWishlist]
  rw [List.filterMap_map, List.mem_filterMap]
  constructor
  · rintro ⟨a, ha, hfa⟩
    obtain ⟨hmem, hu⟩ := List.mem_filter.mp ha
    simp only [Function.comp] at hfa
    cases h1 : findProduct s a.product with
    | none =>
      rw [h1] at hfa
      simp at hfa
    | some q =>
      rw [h1] at hfa
      by_cases hq : q.isActive
      · simp only [hq, Option.some_bind, if_true] at hfa
        obtain ⟨rfl, rfl⟩ := Prod.mk.injEq .. ▸ Option.some.injEq .. ▸ hfa
        exact ⟨hmem, by simpa using hu, h1, hq⟩
      · simp [hq] at hfa
  · rintro ⟨hi, hu, hf, hact⟩
    refine ⟨w, List.mem_filter.mpr ⟨hi, by simp [hu]⟩, ?_⟩
    simp only [Function.comp]
    rw [hf]
    simp [hact]

/-- Effect of toggleProductActive on a store containing the product: the
cart and wishlist collections are untouched, the toggled document is the
one the id now resolves to, and it is the response body. -/
theorem toggle_effect (s : Store) (id : Id) (p : Product)
    (hid : isHex24 id = true) (hp : findProduct s id = some p) :
    (toggleProductActive s id).1.cartItems = s.cartItems
  ∧ (toggleProductActive s id).1.wishlistItems = s.wishlistItems
  ∧ findProduct (toggleProductActive s id).1 id = some { p with isActive := !p.isActive }
  ∧ (toggleProductActive s id).2 = .ok { p with isActive := !p.isActive }
  ∧ (toggleProductActive s id).1.products
      = s.products.map (fun q => if q.id == p.id then { p with isActive := !p.isActive } else q)
  ∧ p.id = id := by
  have hne : (id == "") = false := validStr_ne_empty id hid
  have hp0 : s.products.find? (fun q => q.id == id) = some p := hp
  have hpid : (fun q : Product => q.id == id) p = true :=
    @List.find?_some Product (fun q => q.id == id) p s.products hp0
  have hpid' : p.id = id := by simpa using hpid
  have hpid2 : (p.id == id) = true := by simpa using hpid'
  unfold toggleProductActive
  simp only [hne, hid, Bool.not_true, Bool.or_false, Bool.false_eq_true, if_false, hp]
  refine ⟨trivial, trivial, ?_, trivial, trivial, hpid'⟩
  unfold findProduct
  simp only
  rw [List.find?_map]
  have hfun : ((fun q : Product => q.id == id) ∘
      (fun q : Product => if q.id == p.id then { p with isActive := !p.isActive } else q))
      = fun q : Product => q.id == id := by
    funext q
    simp only [Function.comp]
    by_cases hq : (q.id == p.id) = true
    · simp only [hq, if_true]
      have : q.id = p.id := by simpa using hq
      simp [this, hpid']
    · simp only [hq, Bool.false_eq_true, if_false]
  rw [hfun]
  unfold findProduct at hp
  rw [hp]
  simp

/-- Claim C4: every cart item and every wishlist item whose referenced
product is missing or inactive is hidden from the computed views, while
the reads leave the stored rows untouched; and for an item whose product
still exists but is inactive, setting isActive back to true (the toggle
endpoint) makes the very same stored row reappear in its view.  Cart
items and wishlist items are quantified independently. -/
theorem inactive_product_soft_orphaning (s : Store) (u : Id) :
    (getCart s u).1 = s
  ∧ (getWishlist s u).1 = s
  ∧ (∀ i : CartItem, i ∈ s.cartItems →
      (findProduct s i.product = none
        ∨ ∃ p : Product, findProduct s i.product = some p ∧ p.isActive = false) →
      ∀ q : Product, (i, q) ∉ (getCart s u).2.items)
  ∧ (∀ w : WishlistItem, w ∈ s.wishlistItems →
      (findProduct s w.product = none
        ∨ ∃ p : Product, findProduct s w.product = some p ∧ p.isActive = false) →
      ∀ q : Product, (w, q) ∉ (getWishlist s u).2)
  ∧ (∀ (i : CartItem) (p : Product), i ∈ s.cartItems → i.user = u →
      findProduct s i.product = some p → p.isActive = false → isHex24 i.product = true →
      i ∈ (toggleProductActive s i.product).1.cartItems
      ∧ (i, { p with isActive := true })
          ∈ (buildCartSummary (toggleProductActive s i.product).1 u).items)
  ∧ (∀ (w : WishlistItem) (p : Product), w ∈ s.wishlistItems → w.user = u →
      findProduct s w.product = some p → p.isActive = false → isHex24 w.product = true →
      w ∈ (toggleProductActive s w.product).1.wishlistItems
      ∧ (w, { p with isActive := true })
          ∈ (getWishlist (toggleProductActive s w.product).1 u).2) := by
  refine ⟨rfl, rfl, ?_, ?_, ?_, ?_⟩
  · intro i _ horph q hq
    obtain ⟨_, _, hfq, hact⟩ := (cart_summary_mem s u i q).mp hq
    rcases horph with hnone | ⟨p, hp, hinact⟩
    · rw [hnone] at hfq
      exact absurd hfq (by simp)
    · rw [hp] at hfq
      obtain rfl := by simpa using hfq
      rw [hinact] at hact
      exact absurd hact (by simp)
  · intro w _ horph q hq
    obtain ⟨_, _, hfq, hact⟩ := (wishlist_view_mem s u w q).mp hq
    rcases horph with hnone | ⟨p, hp, hinact⟩
    · rw [hnone] at hfq
      exact absurd hfq (by simp)
    · rw [hp] at hfq
      obtain rfl := by simpa using hfq
      rw [hinact] at hact
      exact absurd hact (by simp)
  · intro i p hi hiu hp hinact hid
    obtain ⟨hc, hwl, hfind, -, -, -⟩ := toggle_effect s i.product p hid hp
    have hp' : ({ p with isActive := !p.isActive } : Product)
        = { p with isActive := true } := by
      rw [hinact]
      rfl
    refine ⟨by rw [hc]; exact hi, ?_⟩
    refine (cart_summary_mem _ u i _).mpr ⟨?_, hiu, ?_, rfl⟩
    · rw [hc]
      exact hi
    · rw [hfind, hp']
  · intro w p hw hwu hp hinact hid
    obtain ⟨hc, hwl, hfind, -, -, -⟩ := toggle_effect s w.product p hid hp
    have hp' : ({ p with isActive := !p.isActive } : Product)
        = { p with isActive := true } := by
      rw [hinact]
      rfl
    refine ⟨by rw [hwl]; exact hw, ?_⟩
    refine (wishlist_view_mem _ u w _).mpr ⟨?_, hwu, ?_, rfl⟩
    · rw [hwl]
      exact hw
    · rw [hfind, hp']

/-- Claim C4 witness: exercises the missing-product case on the cart
side (a dangling reference), the inactive-product case on the wishlist
side, and the reappearance after reactivation. -/
theorem inactive_product_soft_orphaning_witness :
    (getCart sampleStoreDangling "u1").1 = sampleStoreDangling
  ∧ (∀ q : Product,
      ({ id := "c3", user := "u1", product := "dddddddddddddddddddddddd",
         quantity := JsVal.num 4 }, q) ∉ (getCart sampleStoreDangling "u1").2.items)
  ∧ (∀ q : Product,
      (({ user := "u1", product := "bbbbbbbbbbbbbbbbbbbbbbbb" } : WishlistItem), q)
        ∉ (getWishlist sampleStoreDangling "u1").2)
  ∧ (({ user := "u1", product := "bbbbbbbbbbbbbbbbbbbbbbbb" } : WishlistItem),
      { sampleP2 with isActive := true })
        ∈ (getWishlist (toggleProductActive sampleStoreDangling "bbbbbbbbbbbbbbbbbbbbbbbb").1 "u1").2 := by
  have h := inactive_product_soft_orphaning sampleStoreDangling "u1"
  refine ⟨h.1, ?_, ?_, ?_⟩
  · exact h.2.2.1
      { id := "c3", user := "u1", product := "dddddddddddddddddddddddd", quantity := .num 4 }
      (by decide) (Or.inl (by decide))
  · exact h.2.2.2.1
      { user := "u1", product := "bbbbbbbbbbbbbbbbbbbbbbbb" }
      (by decide) (Or.inr ⟨sampleP2, by decide, rfl⟩)
  · exact (h.2.2.2.2.2
      { user := "u1", product := "bbbbbbbbbbbbbbbbbbbbbbbb" } sampleP2
      (by decide) rfl (by decide) rfl (by decide)).2

/-- Claim C10: toggleProductActive negates isActive and changes nothing
else: the answered document agrees with the stored one, keeps name,
category, type, brand, sku, price, oldPrice, rating, badge, image,
description and stock (and the id), carries the negated isActive, the
cart and wishlist collections and all other products are untouched, and
toggling a second time restores the original document, in particular the
original isActive value. -/
theorem toggle_active_frame_and_involution (s : Store) (id : Id) (p : Product)
    (hid : isHex24 id = true) (hp : findProduct s id = some p) :
    (toggleProductActive s id).2 = .ok { p with isActive := !p.isActive }
  ∧ findProduct (toggleProductActive s id).1 id = some { p with isActive := !p.isActive }
  ∧ (({ p with isActive := !p.isActive } : Product).name = p.name
     ∧ ({ p with isActive := !p.isActive } : Product).category = p.category
     ∧ ({ p with isActive := !p.isActive } : Product).type = p.type
     ∧ ({ p with isActive := !p.isActive } : Product).brand = p.brand
     ∧ ({ p with isActive := !p.isActive } : Product).sku = p.sku
     ∧ ({ p with isActive := !p.isActive } : Product).price = p.price
     ∧ ({ p with isActive := !p.isActive } : Product).oldPrice = p.oldPrice
     ∧ ({ p with isActive := !p.isActive } : Product).rating = p.rating
     ∧ ({ p with isActive := !p.isActive } : Product).badge = p.badge
     ∧ ({ p with isActive := !p.isActive } : Product).image = p.image
     ∧ ({ p with isActive := !p.isActive } : Product).description = p.description
     ∧ ({ p with isActive := !p.isActive } : Product).stock = p.stock
     ∧ ({ p with isActive := !p.isActive } : Product).id = p.id
     ∧ ({ p with isActive := !p.isActive } : Product).isActive = !p.isActive)
  ∧ (toggleProductActive s id).1.cartItems = s.cartItems
  ∧ (toggleProductActive s id).1.wishlistItems = s.wishlistItems
  ∧ (∀ q ∈ s.products, q.id ≠ id → q ∈ (toggleProductActive s id).1.products)
  ∧ findProduct (toggleProductActive (toggleProductActive s id).1 id).1 id = some p
  ∧ (toggleProductActive (toggleProductActive s id).1 id).2 = .ok p := by
  obtain ⟨hc, hwl, hfind, hresp, hprods, hpid⟩ := toggle_effect s id p hid hp
  obtain ⟨hc2, hwl2, hfind2, hresp2, hprods2, hpid2⟩ :=
    toggle_effect (toggleProductActive s id).1 id { p with isActive := !p.isActive } hid hfind
  have hback : ({ { p with isActive := !p.isActive } with
      isActive := !(({ p with isActive := !p.isActive } : Product).isActive) } : Product) = p := by
    simp
  refine ⟨hresp, hfind, ⟨rfl, rfl, rfl, rfl, rfl, rfl, rfl, rfl, rfl, rfl, rfl, rfl, rfl, rfl⟩,
    hc, hwl, ?_, ?_, ?_⟩
  · intro q hq hqid
    rw [hprods]
    refine List.mem_map.mpr ⟨q, hq, ?_⟩
    have : (q.id == p.id) = false := by
      rw [hpid]
      simpa using hqid
    simp [this]
  · rw [hfind2, hback]
  · rw [hresp2, hback]

/-- Claim C10 witness. -/
theorem toggle_active_frame_and_involution_witness :
    isHex24 "bbbbbbbbbbbbbbbbbbbbbbbb" = true
  ∧ findProduct sampleStore "bbbbbbbbbbbbbbbbbbbbbbbb" = some sampleP2
  ∧ (toggleProductActive sampleStore "bbbbbbbbbbbbbbbbbbbbbbbb").2
      = .ok { sampleP2 with isActive := !sampleP2.isActive } := by
  have h1 : isHex24 "bbbbbbbbbbbbbbbbbbbbbbbb" = true := by decide
  have h2 : findProduct sampleStore "bbbbbbbbbbbbbbbbbbbbbbbb" = some sampleP2 := rfl
  exact ⟨h1, h2, (toggle_active_frame_and_involution sampleStore _ sampleP2 h1 h2).1⟩

/-- Claim C6 counterexample: in sampleStore the user wishlist already
holds the (inactive) product, yet addToWishlist answers 404 Product not
found, not 409 Conflict, because the active-product check runs before
the duplicate check. -/
theorem wishlist_duplicate_of_inactive_not_conflict :
    (∃ w ∈ sampleStore.wishlistItems, w.user = "u1" ∧ w.product = "bbbbbbbbbbbbbbbbbbbbbbbb")
  ∧ addToWishlist sampleStore "u1" (some "bbbbbbbbbbbbbbbbbbbbbbbb")
      = (sampleStore, .notFound "Product not found")
  ∧ WishResp.status (.notFound "Product not found") = 404
  ∧ (addToWishlist sampleStore "u1" (some "bbbbbbbbbbbbbbbbbbbbbbbb")).2
      ≠ .conflict "Product already in wishlist" := by
  refine ⟨⟨{ user := "u1", product := "bbbbbbbbbbbbbbbbbbbbbbbb" }, by decide, rfl, rfl⟩,
    by decide, rfl, by decide⟩

/-- Claim C6 (amended): for every user and product already present in
the wishlist whose referenced product still exists and is active (as
when the duplicate add immediately follows the first), the second
addToWishlist fails with 409 Conflict, distinct from the generic 500,
and leaves the whole store, in particular the original WishlistItem,
unchanged. -/
theorem wishlist_duplicate_conflict_leaves_store (s : Store) (u : Id) (pid : String)
    (p : Product)
    (hid : objectIdIsValidStr pid = true)
    (hp : findProduct s pid = some p) (hact : p.isActive = true)
    (hdup : ∃ w ∈ s.wishlistItems, w.user = u ∧ w.product = pid) :
    addToWishlist s u (some pid) = (s, .conflict "Product already in wishlist")
  ∧ WishResp.status (.conflict "Product already in wishlist") = 409
  ∧ WishResp.status (.error "Error adding to wishlist") = 500 := by
  have hne := validStr_ne_empty pid hid
  have hfa : findActiveProduct s pid = some p := by
    unfold findActiveProduct
    rw [hp]
    simp [hact]
  have hany : s.wishlistItems.any (fun w => w.user == u && w.product == pid) = true := by
    rw [List.any_eq_true]
    obtain ⟨w, hw, h1, h2⟩ := hdup
    exact ⟨w, hw, by simp [h1, h2]⟩
  refine ⟨?_, rfl, rfl⟩
  unfold addToWishlist
  simp [hne, hid, hfa, hany]

/-- Claim C6 witness (for the amended statement). -/
theorem wishlist_duplicate_conflict_leaves_store_witness :
    objectIdIsValidStr "aaaaaaaaaaaaaaaaaaaaaaaa" = true
  ∧ findProduct sampleStoreDup "aaaaaaaaaaaaaaaaaaaaaaaa" = some sampleP1
  ∧ sampleP1.isActive = true
  ∧ addToWishlist sampleStoreDup "u1" (some "aaaaaaaaaaaaaaaaaaaaaaaa")
      = (sampleStoreDup, .conflict "Product already in wishlist") := by
  have h1 : objectIdIsValidStr "aaaaaaaaaaaaaaaaaaaaaaaa" = true := by decide
  have h2 : findProduct sampleStoreDup "aaaaaaaaaaaaaaaaaaaaaaaa" = some sampleP1 := rfl
  have h3 : sampleP1.isActive = true := rfl
  have h4 : ∃ w ∈ sampleStoreDup.wishlistItems,
      w.user = "u1" ∧ w.product = "aaaaaaaaaaaaaaaaaaaaaaaa" :=
    ⟨{ user := "u1", product := "aaaaaaaaaaaaaaaaaaaaaaaa" }, by decide, rfl, rfl⟩
  exact ⟨h1, h2, h3,
    (wishlist_duplicate_conflict_leaves_store sampleStoreDup "u1" _ sampleP1 h1 h2 h3 h4).1⟩

/-- Claim C7: createProduct answers 400 whenever the price is absent
(undefined or null) or not coercible to a number, creating nothing; an
otherwise valid request whose sku equals the sku of a stored product is
answered 409 by the pre-insert check, and a sku that slips past the raw
pre-check but collides after trimming is caught by the unique-index
duplicate-key error, also translated to 409; in every failure the store
is unchanged. -/
theorem create_product_price_and_sku_guards (s : Store) (r : CreateReq) (nid : Id) (now : Nat) :
    (priceMissing r.price = true →
        (createProduct s r nid now).1 = s ∧ (createProduct s r nid now).2.status = 400)
  ∧ (∀ sk : String,
      strFalsy r.name = false → strFalsy r.category = false → strFalsy r.type = false →
      priceMissing r.price = false →
      r.sku = some sk → (sk == "") = false →
      (∃ p ∈ s.products, p.sku = some sk) →
      createProduct s r nid now = (s, .conflict "SKU already exists"))
  ∧ (∀ sk : String,
      strFalsy r.name = false → strFalsy r.category = false → strFalsy r.type = false →
      priceMissing r.price = false →
      r.sku = some sk → (sk == "") = false →
      (∀ p ∈ s.products, p.sku ≠ some sk) →
      (∃ p ∈ s.products, p.sku = some sk.trim) →
      createProduct s r nid now = (s, .conflict "Duplicate key (likely sku)"))
  ∧ priceMissing .undef = true ∧ priceMissing .null = true ∧ priceMissing .nan = true
  ∧ (∀ q : ℚ, priceMissing (.num q) = false)
  ∧ CreateResp.status (.conflict "SKU already exists") = 409
  ∧ CreateResp.status (.conflict "Duplicate key (likely sku)") = 409
  ∧ (∀ m, CreateResp.status (.badReq m) = 400) := by
  refine ⟨?_, ?_, ?_, rfl, rfl, rfl, fun q => rfl, rfl, rfl, fun m => rfl⟩
  · intro hpm
    unfold createProduct
    by_cases hn : (strFalsy r.name || strFalsy r.category || strFalsy r.type) = true
    · simp [hn, CreateResp.status]
    · simp only [Bool.not_eq_true] at hn
      simp [hn, hpm, CreateResp.status]
  · intro sk hname hcat htype hpm hsku hske hex
    unfold createProduct
    have hany : s.products.any (fun p => p.sku == some sk) = true := by
      rw [List.any_eq_true]
      obtain ⟨p, hp, hps⟩ := hex
      exact ⟨p, hp, by simp [hps]⟩
    simp [hname, hcat, htype, hpm, hsku, hske, hany]
  · intro sk hname hcat htype hpm hsku hske hnone hex
    unfold createProduct
    have hany : s.products.any (fun p => p.sku == some sk) = false := by
      rw [List.any_eq_false]
      intro p hp
      simp only [beq_iff_eq]
      exact hnone p hp
    have hdoc : (createDoc r nid now).sku = some sk.trim := by
      unfold createDoc
      simp [hsku, hske]
    have hany2 : s.products.any (fun p => p.sku == some sk.trim) = true := by
      rw [List.any_eq_true]
      obtain ⟨p, hp, hps⟩ := hex
      exact ⟨p, hp, by simp [hps]⟩
    simp [hname, hcat, htype, hpm, hsku, hske, hany, hdoc, hany2]

/-- Claim C7 witness. -/
theorem create_product_price_and_sku_guards_witness :
    priceMissing sampleBadPriceReq.price = true
  ∧ (createProduct sampleStore sampleBadPriceReq "cccccccccccccccccccccccc" 5).1 = sampleStore
  ∧ (createProduct sampleStore sampleBadPriceReq "cccccccccccccccccccccccc" 5).2.status = 400
  ∧ createProduct sampleStore sampleDupSkuReq "cccccccccccccccccccccccc" 5
      = (sampleStore, .conflict "SKU already exists") := by
  have h := create_product_price_and_sku_guards sampleStore sampleBadPriceReq
    "cccccccccccccccccccccccc" 5
  have hb := h.1 (by decide)
  have h2 := (create_product_price_and_sku_guards sampleStore sampleDupSkuReq
    "cccccccccccccccccccccccc" 5).2.1 "S1" (by decide) (by decide) (by decide) (by decide)
    rfl (by decide) ⟨sampleP1, by decide, rfl⟩
  exact ⟨by decide, hb.1, hb.2, h2⟩

/-- The BSON numeric comparison is total. -/
theorem bsonNumLe_total (a b : JsVal) : (bsonNumLe a b || bsonNumLe b a) = true := by
  unfold bsonNumLe
  cases jsToNumber a with
  | none => simp
  | some x =>
    cases jsToNumber b with
    | none => simp
    | some y =>
      simp only [Bool.or_eq_true, decide_eq_true_eq]
      exact le_total x y

/-- The BSON numeric comparison is transitive. -/
theorem bsonNumLe_trans (a b c : JsVal) :
    bsonNumLe a b = true → bsonNumLe b c = true → bsonNumLe a c = true := by
  unfold bsonNumLe
  cases jsToNumber a <;> cases jsToNumber b <;> cases jsToNumber c <;> simp
  exact fun h1 h2 => le_trans h1 h2

/-- The price-high branch of the sort stage. -/
theorem applySort_priceHigh (l : List Product) :
    applySort "price-high" l = l.mergeSort (fun a b => bsonNumLe b.price a.price) := by
  rfl

/-- Membership is invariant under the sort stage for every sort key. -/
theorem mem_applySort (key : String) (l : List Product) (p : Product) :
    p ∈ applySort key l ↔ p ∈ l := by
  unfold applySort
  split_ifs <;> simp [List.mem_mergeSort]

/-- The natural ceiling of a quotient of naturals as integer arithmetic:
the familiar (t + L - 1) / L formula. -/
theorem natCeil_div (t L : ℕ) (hL : 0 < L) :
    ⌈(t : ℚ) / (L : ℚ)⌉₊ = (t + L - 1) / L := by
  have hLQ : (0 : ℚ) < (L : ℚ) := by exact_mod_cast hL
  apply le_antisymm
  · rw [Nat.ceil_le, div_le_iff₀ hLQ]
    have hdm := Nat.div_add_mod (t + L - 1) L
    have hm : (t + L - 1) % L < L := Nat.mod_lt _ hL
    have ht : t ≤ L * ((t + L - 1) / L) := by
      generalize hP : L * ((t + L - 1) / L) = P at hdm
      generalize hM : (t + L - 1) % L = M at hdm hm
      omega
    calc (t : ℚ) ≤ ((L * ((t + L - 1) / L) : ℕ) : ℚ) := by exact_mod_cast ht
      _ = (((t + L - 1) / L : ℕ) : ℚ) * (L : ℚ) := by push_cast; ring
  · have h1 : (t : ℚ) / (L : ℚ) ≤ (⌈(t : ℚ) / (L : ℚ)⌉₊ : ℚ) := Nat.le_ceil _
    rw [div_le_iff₀ hLQ] at h1
    have h2 : t ≤ ⌈(t : ℚ) / (L : ℚ)⌉₊ * L := by exact_mod_cast h1
    rw [Nat.div_le_iff_le_mul_add_pred hL]
    have h3 : t ≤ L * ⌈(t : ℚ) / (L : ℚ)⌉₊ := by rwa [Nat.mul_comm] at h2
    generalize hP : L * ⌈(t : ℚ) / (L : ℚ)⌉₊ = P at h3 ⊢
    omega

end Hardware

namespace Hardware

/-- Claim C8: getProducts clamps the effective page to an integer of at
least 1 (default 1) and the effective limit to 1..200 (default 50); with
no sort key it behaves as the price-high key and answers items in
price-descending order; with no active parameter it behaves as
active=true and answers only active products; total counts the matching
documents, and pages is the ceiling of total over the effective limit. -/
theorem get_products_pagination_sort_defaults (s : Store) (q : ListQuery) :
    1 ≤ (getProducts s q).page
  ∧ (q.page = none → (getProducts s q).page = 1)
  ∧ 1 ≤ (getProducts s q).limit ∧ (getProducts s q).limit ≤ 200
  ∧ (q.limit = none → (getProducts s q).limit = 50)
  ∧ (q.sort = none → getProducts s q = getProducts s { q with sort := some "price-high" })
  ∧ (q.sort = none →
      List.Pairwise (fun a b => bsonNumLe b.price a.price = true) (getProducts s q).items)
  ∧ (q.active = none → getProducts s q = getProducts s { q with active := some "true" })
  ∧ (q.active = none → ∀ p ∈ (getProducts s q).items, p.isActive = true)
  ∧ (getProducts s q).total = (s.products.filter (matchesFilter q)).length
  ∧ (getProducts s q).pages
      = ((getProducts s q).total + (getProducts s q).limit.toNat - 1)
          / (getProducts s q).limit.toNat := by
  have hpage : (getProducts s q).page = max (parseIntOr q.page 1) 1 := rfl
  have hlimit : (getProducts s q).limit = min (max (parseIntOr q.limit 50) 1) 200 := rfl
  have htotal : (getProducts s q).total = (s.products.filter (matchesFilter q)).length := rfl
  have hitems : (getProducts s q).items =
      ((applySort ((q.sort).getD "price-high") (s.products.filter (matchesFilter q))).drop
        (((max (parseIntOr q.page 1) 1 - 1) * (min (max (parseIntOr q.limit 50) 1) 200)).toNat)).take
        (min (max (parseIntOr q.limit 50) 1) 200).toNat := rfl
  have h1le : (1 : Int) ≤ min (max (parseIntOr q.limit 50) 1) 200 :=
    le_min (le_max_right _ _) (by norm_num)
  refine ⟨?_, ?_, ?_, ?_, ?_, ?_, ?_, ?_, ?_, htotal, ?_⟩
  · rw [hpage]
    exact le_max_right _ _
  · intro h
    rw [hpage, h]
    decide
  · rw [hlimit]
    exact h1le
  · rw [hlimit]
    exact min_le_right _ _
  · intro h
    rw [hlimit, h]
    decide
  · intro h
    simp only [getProducts, h, Option.getD]
    rfl
  · intro h
    have hkey : (q.sort).getD "price-high" = "price-high" := by
      rw [h]
      rfl
    rw [hitems, hkey, applySort_priceHigh]
    exact List.Pairwise.sublist ((List.take_sublist _ _).trans (List.drop_sublist _ _))
      (@List.sorted_mergeSort Product (fun a b => bsonNumLe b.price a.price)
        (fun a b c h1 h2 => bsonNumLe_trans _ _ _ h2 h1)
        (fun a b => bsonNumLe_total _ _) _)
  · intro h
    have hmf : matchesFilter q = matchesFilter { q with active := some "true" } := by
      funext p
      unfold matchesFilter
      rw [h]
      rfl
    simp only [getProducts, hmf]
  · intro h p hp
    rw [hitems] at hp
    have hp2 : p ∈ applySort ((q.sort).getD "price-high")
        (s.products.filter (matchesFilter q)) :=
      ((List.take_sublist _ _).trans (List.drop_sublist _ _)).subset hp
    have hp3 : p ∈ s.products.filter (matchesFilter q) := (mem_applySort _ _ _).mp hp2
    have hmf : matchesFilter q p = true := (List.mem_filter.mp hp3).2
    unfold matchesFilter at hmf
    rw [h] at hmf
    simp only [Option.getD, Bool.and_eq_true] at hmf
    exact hmf.1.1.1
  · rw [hlimit, htotal]
    show (getProducts s q).pages = _
    have hL0 : (0 : Int) ≤ min (max (parseIntOr q.limit 50) 1) 200 := le_trans zero_le_one h1le
    have hpages : (getProducts s q).pages =
        ⌈((s.products.filter (matchesFilter q)).length : ℚ)
          / (((min (max (parseIntOr q.limit 50) 1) 200 : Int)) : ℚ)⌉₊ := rfl
    have hcast : (((min (max (parseIntOr q.limit 50) 1) 200 : Int).toNat : ℕ) : ℚ)
        = (((min (max (parseIntOr q.limit 50) 1) 200 : Int)) : ℚ) := by
      rw [← Int.cast_natCast, Int.toNat_of_nonneg hL0]
    have hpos : 0 < (min (max (parseIntOr q.limit 50) 1) 200 : Int).toNat := by omega
    rw [hpages, ← hcast, natCeil_div _ _ hpos]

/-- Claim C8 witness. -/
theorem get_products_pagination_sort_defaults_witness :
    (getProducts sampleStore sampleQueryNone).page = 1
  ∧ (getProducts sampleStore sampleQueryNone).limit = 50
  ∧ (∀ p ∈ (getProducts sampleStore sampleQueryNone).items, p.isActive = true)
  ∧ (getProducts sampleStore sampleQueryNone).pages
      = ((getProducts sampleStore sampleQueryNone).total
          + (getProducts sampleStore sampleQueryNone).limit.toNat - 1)
        / (getProducts sampleStore sampleQueryNone).limit.toNat := by
  have h := get_products_pagination_sort_defaults sampleStore sampleQueryNone
  exact ⟨h.2.1 rfl, h.2.2.2.2.1 rfl, h.2.2.2.2.2.2.2.2.1 rfl, h.2.2.2.2.2.2.2.2.2.2⟩

end Hardware
